import Mathlib

/-!
Shallow embedding of the message-routing core of
`electron-utility-process-manager` (`src/node/UPMNodeProcess.ts`).

Modelling choices:
* Structured-clone payload values are modelled by the inductive `Value`
  (`null`, booleans, integers, strings suffice for the dispatch logic, which
  passes values through opaquely).
* A JavaScript thrown value is modelled by `ErrVal`: an optional `message`
  property plus a `toStr` fallback, matching the source's
  `err.message ?? err.toString()`.
* Promises are resolved transparently: an async handler is a function
  returning `Except ErrVal Value`, where `Except.error` covers both a
  synchronous throw and a rejected promise (both reach the same `catch`).
* `Map` objects are modelled as association lists with `Map`-faithful
  operations (`mapHas`, `mapGet`, `mapSet`, `mapDelete`).
* A message port is identified by a `PortId`; `postMessage` calls are
  collected in the result of each routine as `(PortId, NodeMessage)` pairs.
* `ev.data?.message ?? ev.data` is modelled by `EventData`: the envelope
  arrives either directly (`direct`) or nested under a `message` field
  (`wrapped`).
* Log calls are not modelled as output; the result constructors
  (`errored`, `invalidKind`, `unknownChannel`, `assertFailed`) identify
  exactly the code paths on which the source logs.
-/

namespace UPM

/-- A structured-clone value carried in payload fields (`args`, `eventData`,
`result`). JavaScript strict equality `res === true` corresponds to equality
with `Value.vBool true`. -/
inductive Value where
  | vNull
  | vBool (b : Bool)
  | vInt (n : Int)
  | vStr (s : String)
  deriving DecidableEq, Repr

/-- Type `UPM.MessageKind` from the common module: `request`, `response`, `event`.
The `other` constructor covers an ill-typed sender putting any other value in
the `kind` field; it falls through to the `otherwise` branch exactly as
`response` does. -/
inductive MessageKind where
  | Request
  | Response
  | Event
  | other (s : String)
  deriving DecidableEq, Repr

/-- Type `UPM.IPCChannel` from the common module: the two recognized channel values,
plus `other` for an unrecognized channel string. -/
inductive IPCChannel where
  | UPMServiceMessage
  | UPMServiceNewClient
  | other (s : String)
  deriving DecidableEq, Repr

/-- Printable channel name, used in the client-port assertion message
(`Only IPCChannel.UPMServiceMessage are allowed on client ports: ...`). -/
def IPCChannel.name : IPCChannel → String
  | .UPMServiceMessage => "UPMServiceMessage"
  | .UPMServiceNewClient => "UPMServiceNewClient"
  | .other s => s

/-- A thrown JavaScript value: its optional `message` property and its string
form. -/
structure ErrVal where
  message : Option String
  toStr : String
  deriving DecidableEq, Repr

/-- Source expression `err.message ?? err.toString()` from the catch block. -/
def ErrVal.text (e : ErrVal) : String :=
  e.message.getD e.toStr

/-- An `AssertionError` thrown by `assert(cond, msg)` of `@3fv/guard`: its
`message` property is the supplied string. -/
def assertionErr (msg : String) : ErrVal :=
  { message := some msg, toStr := msg }

/-- The payload of an envelope, `UPM.Message`:
`{ type, kind, messageId, clientId?, args?, eventData?, result?, error? }`.
Absent optional fields are the defaults below; an explicit JavaScript `null`
in `result` is `some Value.vNull`, distinct from an absent field (`none`). -/
structure Payload where
  type : String := ""
  kind : MessageKind := .other ""
  messageId : String := ""
  clientId : String := ""
  args : List Value := []
  eventData : Value := .vNull
  result : Option Value := none
  error : Option String := none
  deriving DecidableEq, Repr

/-- Type `UPM.NodeEnvelope` / `UPM.NodeMessage`:
`{ channel, payload }`. -/
structure NodeEnvelope where
  channel : IPCChannel
  payload : Payload
  deriving DecidableEq, Repr

/-- A posted message has the same shape as an inbound envelope. -/
abbrev NodeMessage := NodeEnvelope

/-- A message port (`Electron.MessagePortMain` / `UPM.Port`) is identified by
a numeric id; its behaviour is host-provided and out of scope. -/
abbrev PortId := Nat

/-- The `data` of an `Electron.MessageEvent`: the source computes
`ev.data?.message ?? ev.data`, so the envelope is either the event data itself
or nested under its `message` field. -/
inductive EventData where
  | direct (env : NodeEnvelope)
  | wrapped (env : NodeEnvelope)
  deriving DecidableEq, Repr

/-- Source expression `ev.data?.message ?? ev.data`. -/
def EventData.unwrap : EventData → NodeEnvelope
  | .direct env => env
  | .wrapped env => env

/-- An `Electron.MessageEvent`: its data and its transferred ports. -/
structure MessageEvent where
  data : EventData
  ports : List PortId

/-- Type `UPM.RequestHandler`: `(type, messageId, ...args) => Promise<result>`.
`Except.error` models a throw or rejection. -/
abbrev RequestHandler := String → String → List Value → Except ErrVal Value

/-- Type `UPM.EventHandler`: `(clientId, port, eventData) => boolean-ish`, possibly
promise-valued; the dispatcher awaits and compares the result with `true`. -/
abbrev EventHandler := String → PortId → Value → Except ErrVal Value

/-! ### `Map` semantics over association lists -/

/-- Semantics of `Map.has`. -/
def mapHas {α : Type} (m : List (String × α)) (k : String) : Bool :=
  m.any fun kv => kv.1 = k

/-- Semantics of `Map.get` (`none` models `undefined`). -/
def mapGet {α : Type} (m : List (String × α)) (k : String) : Option α :=
  (m.find? fun kv => kv.1 = k).map Prod.snd

/-- Semantics of `Map.set`: replace in place when the key exists, otherwise append in
insertion order. -/
def mapSet {α : Type} (m : List (String × α)) (k : String) (v : α) :
    List (String × α) :=
  if mapHas m k then m.map fun kv => if kv.1 = k then (k, v) else kv
  else m ++ [(k, v)]

/-- Semantics of `Map.delete`. -/
def mapDelete {α : Type} (m : List (String × α)) (k : String) :
    List (String × α) :=
  m.filter fun kv => kv.1 ≠ k

/-! ### The router state -/

/-- The mutable fields of class `UPMNodeProcess`. -/
structure UPMNodeProcess where
  clientPorts_ : List (String × PortId)
  requestHandlers_ : List (String × RequestHandler)
  eventHandlers_ : List EventHandler

/-- Method `addRequestHandler`: `this.requestHandlers_.set(type, handler)`. -/
def addRequestHandler (s : UPMNodeProcess) (type : String)
    (handler : RequestHandler) : UPMNodeProcess :=
  { s with requestHandlers_ := mapSet s.requestHandlers_ type handler }

/-- Method `addEventHandler`: `this.eventHandlers_.push(handler)`, so registration
order is list order. -/
def addEventHandler (s : UPMNodeProcess) (handler : EventHandler) :
    UPMNodeProcess :=
  { s with eventHandlers_ := s.eventHandlers_ ++ [handler] }

/-! ### Event dispatch -/

/-- Outcome of the event-dispatch loop; `invoked` counts how many handlers
were called. `handled n`: the `n`-th handler (1-based) returned strict `true`
and the loop returned early. `errored n e`: the `n`-th handler threw `e`,
which the surrounding `catch` logs; the loop is abandoned. `exhausted n`: all
`n` handlers ran without returning `true`. -/
inductive EventOutcome where
  | handled (invoked : Nat)
  | errored (invoked : Nat) (err : ErrVal)
  | exhausted (invoked : Nat)
  deriving DecidableEq, Repr

/-- Shift an outcome past one already-invoked handler. -/
def EventOutcome.bump : EventOutcome → EventOutcome
  | .handled n => .handled (n + 1)
  | .errored n e => .errored (n + 1) e
  | .exhausted n => .exhausted (n + 1)

/-- The `for (const handler of this.eventHandlers_)` loop of the
`MessageKind.Event` branch: invoke each handler in order, await a
promise-valued result, return early on strict `true`; a throw (or rejection)
escapes to the surrounding `catch`, which logs it and ends dispatch. -/
def dispatchEvent (handlers : List EventHandler) (clientId : String)
    (port : PortId) (eventData : Value) : EventOutcome :=
  match handlers with
  | [] => .exhausted 0
  | h :: rest =>
    match h clientId port eventData with
    | .error e => .errored 1 e
    | .ok v =>
      if v = .vBool true then .handled 1
      else (dispatchEvent rest clientId port eventData).bump

/-! ### Service-message dispatch -/

/-- Result of `onServiceMessage`. `requestReply` carries the single
`port.postMessage(msg)` call of the request branch; `eventResult` carries the
event loop's outcome (no message is posted); `invalidKind` is the `otherwise`
branch, which logs `Message kind (...) is invalid here` and posts nothing. -/
inductive ServiceResult where
  | requestReply (port : PortId) (msg : NodeMessage)
  | eventResult (o : EventOutcome)
  | invalidKind (k : MessageKind)
  deriving DecidableEq, Repr

/-- The `postMessage` calls a service dispatch performs. -/
def ServiceResult.posts : ServiceResult → List (PortId × NodeMessage)
  | .requestReply p m => [(p, m)]
  | .eventResult _ => []
  | .invalidKind _ => []

/-- A successful reply envelope:
`{ channel: UPMServiceMessage, payload: { type, kind: Response, messageId, result } }`. -/
def successReply (type messageId : String) (result : Value) : NodeMessage :=
  { channel := .UPMServiceMessage
    payload := { type := type
                 kind := .Response
                 messageId := messageId
                 result := some result } }

/-- An error reply envelope:
`{ channel: UPMServiceMessage, payload: { type, kind: Response, messageId, result: null, error } }`. -/
def errorReply (type messageId : String) (e : ErrVal) : NodeMessage :=
  { channel := .UPMServiceMessage
    payload := { type := type
                 kind := .Response
                 messageId := messageId
                 result := some .vNull
                 error := some e.text } }

/-- Method `onServiceMessage(clientId, port, payload)`: destructure
`{ messageId, kind, args, eventData, type }` and match on `kind`.
Request: assert a handler is registered (the assertion error is caught by the
same `catch` as a handler throw), await the handler, post a success reply; on
any throw post an error reply. Event: run `dispatchEvent`. Anything else:
log and drop. -/
def onServiceMessage (s : UPMNodeProcess) (clientId : String) (port : PortId)
    (payload : Payload) : ServiceResult :=
  match payload.kind with
  | .Request =>
    match mapGet s.requestHandlers_ payload.type with
    | none =>
      .requestReply port
        (errorReply payload.type payload.messageId
          (assertionErr ("Unknown request handler (" ++ payload.type ++ ")")))
    | some handler =>
      match handler payload.type payload.messageId payload.args with
      | .ok result =>
        .requestReply port (successReply payload.type payload.messageId result)
      | .error err =>
        .requestReply port (errorReply payload.type payload.messageId err)
  | .Event =>
    .eventResult (dispatchEvent s.eventHandlers_ clientId port payload.eventData)
  | k => .invalidKind k

/-! ### Client-port registration and its listeners -/

/-- Outcome of `onServiceClientPort`. `registered p` records that port `p` had
its listeners attached and was started (`port.start()`); `assertFailed` is the
`assert(!this.clientPorts_.has(clientId), ...)` throwing. -/
inductive RegisterOutcome where
  | registered (startedPort : PortId)
  | assertFailed (msg : String)
  deriving DecidableEq, Repr

/-- Method `onServiceClientPort(clientId, port)`. Faithful to the source: after the
duplicate-registration assertion it attaches the `message` and `close`
listeners and starts the port, but it never calls
`this.clientPorts_.set(clientId, port)` — the returned state is unchanged in
every branch. -/
def onServiceClientPort (s : UPMNodeProcess) (clientId : String)
    (port : PortId) : UPMNodeProcess × RegisterOutcome :=
  if mapHas s.clientPorts_ clientId then
    (s, .assertFailed ("port already registered for clientId(" ++ clientId ++ ")"))
  else
    (s, .registered port)

/-- Result of the `message` listener that `onServiceClientPort` attaches to a
client port. `assertFailed` is the channel assertion throwing before any
dispatch. -/
inductive ClientPortResult where
  | dispatched (r : ServiceResult)
  | assertFailed (msg : String)
  deriving DecidableEq, Repr

/-- The `postMessage` calls of a client-port message delivery. -/
def ClientPortResult.posts : ClientPortResult → List (PortId × NodeMessage)
  | .dispatched r => r.posts
  | .assertFailed _ => []

/-- The `message` listener attached to a registered client port: unwrap
`ev.data?.message ?? ev.data`, assert the channel is `UPMServiceMessage`,
then dispatch `onServiceMessage(clientId, port, payload)` (whose rejection,
were one possible, would only be logged by the `Future.onFailure` wrapper). -/
def clientPortOnMessage (s : UPMNodeProcess) (clientId : String)
    (port : PortId) (ev : MessageEvent) : ClientPortResult :=
  if ev.data.unwrap.channel = .UPMServiceMessage then
    .dispatched (onServiceMessage s clientId port ev.data.unwrap.payload)
  else
    .assertFailed
      ("Only IPCChannel.UPMServiceMessage are allowed on client ports: "
        ++ ev.data.unwrap.channel.name)

/-- The `close` listener attached to a registered client port:
`this.clientPorts_.delete(clientId)`. -/
def clientPortOnClose (s : UPMNodeProcess) (clientId : String) :
    UPMNodeProcess :=
  { s with clientPorts_ := mapDelete s.clientPorts_ clientId }

/-! ### The process-port listener -/

/-- Outcome of `onMessage`. `noPortAttached` models a `UPMServiceNewClient`
envelope with no transferred port, where `message.ports[0]` is `undefined`
and the listener wiring inside `onServiceClientPort` would fail on the host
object; no claim depends on this corner. `unknownChannel` is the `otherwise`
branch logging `Unknown channel (...)`. -/
inductive MessageOutcome where
  | service (r : ServiceResult)
  | newClient (r : RegisterOutcome)
  | noPortAttached
  | unknownChannel (c : IPCChannel)
  deriving DecidableEq, Repr

/-- The `postMessage` calls of a process-port message delivery. -/
def MessageOutcome.posts : MessageOutcome → List (PortId × NodeMessage)
  | .service r => r.posts
  | .newClient _ => []
  | .noPortAttached => []
  | .unknownChannel _ => []

/-- Method `onMessage(port, message)`: unwrap `message.data?.message ?? message.data`
and match the channel: service traffic dispatches with the fixed client id
`"main"` over the same port; `UPMServiceNewClient` registers
`message.ports[0]` under `payload.clientId`; anything else is logged and
dropped. Returns the (possibly) updated state and the outcome. -/
def onMessage (s : UPMNodeProcess) (port : PortId) (ev : MessageEvent) :
    UPMNodeProcess × MessageOutcome :=
  match ev.data.unwrap.channel with
  | .UPMServiceMessage =>
    (s, .service (onServiceMessage s "main" port ev.data.unwrap.payload))
  | .UPMServiceNewClient =>
    match ev.ports.head? with
    | some p0 =>
      ((onServiceClientPort s ev.data.unwrap.payload.clientId p0).1,
       .newClient (onServiceClientPort s ev.data.unwrap.payload.clientId p0).2)
    | none => (s, .noPortAttached)
  | c => (s, .unknownChannel c)

/-- The designated parent-process port (`process.parentPort`). -/
def processPort : PortId := 0

/-- The listener installed by the constructor:
`this.processPort.on("message", message => this.onMessage(this.processPort, message))`. -/
def processOnMessage (s : UPMNodeProcess) (ev : MessageEvent) :
    UPMNodeProcess × MessageOutcome :=
  onMessage s processPort ev

/-! ### Concrete fixtures for witnesses -/

/-- A request handler that returns `true`, like the repository's demo
`heartbeat` handler. -/
def heartbeatHandler : RequestHandler :=
  fun _ _ _ => .ok (.vBool true)

/-- A request handler that always throws an error carrying a `message`. -/
def throwingHandler : RequestHandler :=
  fun _ _ _ => .error { message := some "boom", toStr := "Error: boom" }

/-- An event handler returning strict `false`. -/
def falseHandler : EventHandler :=
  fun _ _ _ => .ok (.vBool false)

/-- An event handler returning strict `true`, like the repository's demo
event handler. -/
def trueHandler : EventHandler :=
  fun _ _ _ => .ok (.vBool true)

/-- An event handler returning the truthy non-boolean `1`. -/
def oneHandler : EventHandler :=
  fun _ _ _ => .ok (.vInt 1)

/-- An event handler that always throws. -/
def throwingEventHandler : EventHandler :=
  fun _ _ _ => .error { message := some "evtboom", toStr := "Error: evtboom" }

/-- A concrete router state: two request handlers, no client ports,
event handlers as each witness requires. -/
def demoState : UPMNodeProcess :=
  { clientPorts_ := []
    requestHandlers_ := [("heartbeat", heartbeatHandler), ("explode", throwingHandler)]
    eventHandlers_ := [falseHandler, trueHandler] }

/-- A state in which client `c1` already holds a port, for the C7 witness. -/
def dupState : UPMNodeProcess :=
  { demoState with clientPorts_ := [("c1", 3)] }

/-- A state holding ports for clients `c1` and `c2`, for the C8 witness. -/
def twoClientState : UPMNodeProcess :=
  { demoState with clientPorts_ := [("c1", 3), ("c2", 4)] }

/-- A concrete inbound request for the registered `heartbeat` handler. -/
def heartbeatRequest : Payload :=
  { type := "heartbeat", kind := .Request, messageId := "m1", args := [.vInt 42] }

/-- A concrete inbound request for the registered throwing handler. -/
def explodeRequest : Payload :=
  { type := "explode", kind := .Request, messageId := "m2" }

/-- A concrete inbound request whose `type` has no registered handler. -/
def unknownRequest : Payload :=
  { type := "nope", kind := .Request, messageId := "m3" }

/-! ### Claims -/

/-- C1: for every inbound service message of kind `request` whose `type` has a
registered request handler that returns a value without throwing, the router
posts exactly one reply envelope, on the same port, on the service channel,
whose payload has kind `response`, the same `type` and `messageId` as the
request, and `result` equal to the handler's (awaited) return value. -/
theorem request_success_replies_once (s : UPMNodeProcess) (clientId : String)
    (port : PortId) (p : Payload) (h : RequestHandler) (v : Value)
    (hkind : p.kind = .Request)
    (hreg : mapGet s.requestHandlers_ p.type = some h)
    (hrun : h p.type p.messageId p.args = .ok v) :
    onServiceMessage s clientId port p =
      .requestReply port (successReply p.type p.messageId v) ∧
    (onServiceMessage s clientId port p).posts =
      [(port,
        { channel := .UPMServiceMessage
          payload := { type := p.type
                       kind := .Response
                       messageId := p.messageId
                       result := some v } })] := by
  have hmain : onServiceMessage s clientId port p =
      .requestReply port (successReply p.type p.messageId v) := by
    unfold onServiceMessage
    rw [hkind, hreg]
    simp only [hrun]
  exact ⟨hmain, by rw [hmain]; rfl⟩

/-- Witness for C1: the demo state's `heartbeat` handler answers a concrete
request with a single `response` reply carrying its return value. -/
theorem request_success_replies_once_witness :
    onServiceMessage demoState "main" 0 heartbeatRequest =
      .requestReply 0 (successReply "heartbeat" "m1" (.vBool true)) ∧
    (onServiceMessage demoState "main" 0 heartbeatRequest).posts =
      [(0,
        { channel := .UPMServiceMessage
          payload := { type := "heartbeat"
                       kind := .Response
                       messageId := "m1"
                       result := some (.vBool true) } })] :=
  request_success_replies_once demoState "main" 0 heartbeatRequest
    heartbeatHandler (.vBool true) rfl rfl rfl

/-- A state whose event-handler list contains a throwing handler followed by
a further handler, for the C4 witness. -/
def demoStateThrowing : UPMNodeProcess :=
  { demoState with eventHandlers_ := [falseHandler, throwingEventHandler, trueHandler] }

/-- A state whose first event handler returns the truthy non-boolean `1`, for
the C9 witness. -/
def demoStateOne : UPMNodeProcess :=
  { demoState with eventHandlers_ := [oneHandler, trueHandler] }

/-- A concrete inbound event message. -/
def pingEvent : Payload :=
  { type := "ping", kind := .Event, messageId := "e1", eventData := .vStr "hello" }

/-- Iterating `bump` on a `handled` outcome only shifts its count. -/
theorem bump_iterate_handled (n m : Nat) :
    EventOutcome.bump^[n] (.handled m) = .handled (m + n) := by
  induction n with
  | zero => rfl
  | succ n ih => rw [Function.iterate_succ_apply', ih]; rfl

/-- Iterating `bump` on an `errored` outcome only shifts its count. -/
theorem bump_iterate_errored (n m : Nat) (e : ErrVal) :
    EventOutcome.bump^[n] (.errored m e) = .errored (m + n) e := by
  induction n with
  | zero => rfl
  | succ n ih => rw [Function.iterate_succ_apply', ih]; rfl

/-- Handlers whose (awaited) result is a value other than strict `true` are
skipped: the loop over `pre ++ rest` reaches `rest`, the invocation count
shifted by `pre.length`. -/
theorem dispatchEvent_append_skipped (pre rest : List EventHandler)
    (clientId : String) (port : PortId) (d : Value)
    (hpre : ∀ g ∈ pre, ∃ v, g clientId port d = .ok v ∧ v ≠ .vBool true) :
    dispatchEvent (pre ++ rest) clientId port d =
      EventOutcome.bump^[pre.length] (dispatchEvent rest clientId port d) := by
  induction pre with
  | nil => rfl
  | cons g pre ih =>
    obtain ⟨v, hg, hv⟩ := hpre g (List.mem_cons_self g pre)
    have hrest := ih fun g₂ hg₂ => hpre g₂ (List.mem_cons_of_mem g hg₂)
    simp only [List.cons_append, dispatchEvent, hg, List.append_eq]
    rw [if_neg hv, hrest, List.length_cons, Function.iterate_succ_apply']

/-- C2: for every inbound request whose handler throws — including a `type`
with no registered handler, where the lookup assertion throws — the router
posts exactly one reply envelope with kind `response`, the same `type` and
`messageId`, `result` equal to `null`, and `error` equal to the thrown error's
`message`, falling back to its string form (`errorReply` unfolds to exactly
that payload). The dispatch is total, so no error escapes to the caller. -/
theorem request_failure_replies_error (s : UPMNodeProcess) (clientId : String)
    (port : PortId) (p : Payload)
    (hkind : p.kind = .Request) :
    (∀ h e, mapGet s.requestHandlers_ p.type = some h →
        h p.type p.messageId p.args = .error e →
        onServiceMessage s clientId port p =
          .requestReply port (errorReply p.type p.messageId e) ∧
        (onServiceMessage s clientId port p).posts =
          [(port, errorReply p.type p.messageId e)]) ∧
    (mapGet s.requestHandlers_ p.type = none →
        onServiceMessage s clientId port p =
          .requestReply port (errorReply p.type p.messageId
            (assertionErr ("Unknown request handler (" ++ p.type ++ ")")))) := by
  constructor
  · intro h e hreg hrun
    have hmain : onServiceMessage s clientId port p =
        .requestReply port (errorReply p.type p.messageId e) := by
      unfold onServiceMessage
      rw [hkind, hreg]
      simp only [hrun]
    exact ⟨hmain, by rw [hmain]; rfl⟩
  · intro hreg
    unfold onServiceMessage
    rw [hkind, hreg]

/-- Witness for C2: the throwing `explode` handler and the unregistered
`nope` type each produce the corresponding single error reply. -/
theorem request_failure_replies_error_witness :
    (onServiceMessage demoState "main" 0 explodeRequest =
      .requestReply 0 (errorReply "explode" "m2"
        { message := some "boom", toStr := "Error: boom" })) ∧
    (onServiceMessage demoState "main" 0 unknownRequest =
      .requestReply 0 (errorReply "nope" "m3"
        (assertionErr "Unknown request handler (nope)"))) :=
  ⟨((request_failure_replies_error demoState "main" 0 explodeRequest rfl).1
      throwingHandler { message := some "boom", toStr := "Error: boom" } rfl rfl).1,
   (request_failure_replies_error demoState "main" 0 unknownRequest rfl).2 rfl⟩

/-- C3: for every inbound message of kind `event`, handlers run one at a time
in registration order, any promise-valued result is awaited, and dispatch
stops at the first handler whose (awaited) result is strict `true`: with the
registry split as `pre ++ h :: post` where every handler in `pre` returns a
non-`true` value and `h` returns `true`, exactly the first `pre.length + 1`
handlers are invoked — the outcome is the same for every `post`, so the later
handlers are never invoked — and no message is posted. -/
theorem event_first_true_stops (s : UPMNodeProcess) (clientId : String)
    (port : PortId) (p : Payload) (pre post : List EventHandler)
    (h : EventHandler)
    (hkind : p.kind = .Event)
    (hhandlers : s.eventHandlers_ = pre ++ h :: post)
    (hpre : ∀ g ∈ pre, ∃ v, g clientId port p.eventData = .ok v ∧ v ≠ .vBool true)
    (hh : h clientId port p.eventData = .ok (.vBool true)) :
    onServiceMessage s clientId port p =
      .eventResult (.handled (pre.length + 1)) ∧
    (onServiceMessage s clientId port p).posts = [] := by
  have hd : dispatchEvent (pre ++ h :: post) clientId port p.eventData =
      .handled (pre.length + 1) := by
    rw [dispatchEvent_append_skipped pre (h :: post) clientId port p.eventData hpre]
    have hone : dispatchEvent (h :: post) clientId port p.eventData =
        .handled 1 := by
      simp [dispatchEvent, hh]
    rw [hone, bump_iterate_handled, Nat.add_comm]
  have hmain : onServiceMessage s clientId port p =
      .eventResult (.handled (pre.length + 1)) := by
    unfold onServiceMessage
    rw [hkind, hhandlers]
    simp only [hd]
  exact ⟨hmain, by rw [hmain]; rfl⟩

/-- Witness for C3: in the demo state the `false`-returning handler is tried
first, the `true`-returning handler stops dispatch, two handlers run, nothing
is posted. -/
theorem event_first_true_stops_witness :
    onServiceMessage demoState "clientA" 3 pingEvent =
      .eventResult (.handled 2) ∧
    (onServiceMessage demoState "clientA" 3 pingEvent).posts = [] :=
  event_first_true_stops demoState "clientA" 3 pingEvent [falseHandler] []
    trueHandler rfl rfl
    (by
      intro g hg
      rw [List.mem_singleton] at hg
      subst hg
      exact ⟨.vBool false, rfl, by decide⟩)
    rfl

/-- C4: for every event dispatch in which a handler throws (or its awaited
promise rejects), the outcome records the logged error and dispatch ends
there: with the registry split as `pre ++ h :: post` where every handler in
`pre` returns a non-`true` value and `h` throws `e`, the outcome is
`errored (pre.length + 1) e` for every `post` — so the handlers registered
after the throwing one are not invoked — and no reply or error message is
posted to the sender. -/
theorem event_handler_throw_swallowed (s : UPMNodeProcess) (clientId : String)
    (port : PortId) (p : Payload) (pre post : List EventHandler)
    (h : EventHandler) (e : ErrVal)
    (hkind : p.kind = .Event)
    (hhandlers : s.eventHandlers_ = pre ++ h :: post)
    (hpre : ∀ g ∈ pre, ∃ v, g clientId port p.eventData = .ok v ∧ v ≠ .vBool true)
    (hh : h clientId port p.eventData = .error e) :
    onServiceMessage s clientId port p =
      .eventResult (.errored (pre.length + 1) e) ∧
    (onServiceMessage s clientId port p).posts = [] := by
  have hd : dispatchEvent (pre ++ h :: post) clientId port p.eventData =
      .errored (pre.length + 1) e := by
    rw [dispatchEvent_append_skipped pre (h :: post) clientId port p.eventData hpre]
    simp only [dispatchEvent, hh]
    rw [bump_iterate_errored, Nat.add_comm]
  have hmain : onServiceMessage s clientId port p =
      .eventResult (.errored (pre.length + 1) e) := by
    unfold onServiceMessage
    rw [hkind, hhandlers]
    simp only [hd]
  exact ⟨hmain, by rw [hmain]; rfl⟩

/-- Witness for C4: with handlers `[false, throwing, true]`, dispatch invokes
two handlers, records the thrown error, never reaches the third handler, and
posts nothing. -/
theorem event_handler_throw_swallowed_witness :
    onServiceMessage demoStateThrowing "clientA" 3 pingEvent =
      .eventResult (.errored 2 { message := some "evtboom", toStr := "Error: evtboom" }) ∧
    (onServiceMessage demoStateThrowing "clientA" 3 pingEvent).posts = [] :=
  event_handler_throw_swallowed demoStateThrowing "clientA" 3 pingEvent
    [falseHandler] [trueHandler] throwingEventHandler
    { message := some "evtboom", toStr := "Error: evtboom" }
    rfl rfl
    (by
      intro g hg
      rw [List.mem_singleton] at hg
      subst hg
      exact ⟨.vBool false, rfl, by decide⟩)
    rfl

/-- C9: event dispatch stops only on the strict boolean `true`
(`res === true`): a handler whose (awaited) result is any other value —
truthy values such as `1` included — does not stop dispatch, and the
remaining handlers are still tried in order, the outcome being that of the
rest of the list shifted by one invocation. -/
theorem event_truthy_not_true_continues (s : UPMNodeProcess)
    (clientId : String) (port : PortId) (p : Payload)
    (h : EventHandler) (rest : List EventHandler) (v : Value)
    (hkind : p.kind = .Event)
    (hhandlers : s.eventHandlers_ = h :: rest)
    (hok : h clientId port p.eventData = .ok v)
    (hne : v ≠ .vBool true) :
    onServiceMessage s clientId port p =
      .eventResult (dispatchEvent rest clientId port p.eventData).bump := by
  unfold onServiceMessage
  rw [hkind, hhandlers]
  simp only [dispatchEvent, hok]
  rw [if_neg hne]

/-- Witness for C9: a first handler returning the truthy `1` does not stop
dispatch; the second handler is still invoked and handles the event, so two
handlers run. -/
theorem event_truthy_not_true_continues_witness :
    onServiceMessage demoStateOne "clientA" 4 pingEvent =
      .eventResult (.handled 2) :=
  event_truthy_not_true_continues demoStateOne "clientA" 4 pingEvent
    oneHandler [trueHandler] (.vInt 1) rfl rfl rfl (by decide)

/-- A service envelope carrying the heartbeat request, for the C10 witness. -/
def mainEnvelope : NodeEnvelope :=
  { channel := .UPMServiceMessage, payload := heartbeatRequest }

/-- A payload of kind `response`, which service dispatch must drop. -/
def responsePayload : Payload :=
  { type := "heartbeat", kind := .Response, messageId := "m9" }

/-- A message event on an unrecognized channel. -/
def bogusEvent : MessageEvent :=
  { data := .direct { channel := .other "bogus", payload := {} }, ports := [] }

/-- A new-client envelope arriving (wrongly) on a client port. -/
def newClientOnClientPortEvent : MessageEvent :=
  { data := .direct { channel := .UPMServiceNewClient
                      payload := { clientId := "c9" } }
    ports := [] }

/-- C5: unrecognized traffic is logged and dropped with nothing sent back and
no state change: a service message whose kind is neither `request` nor `event`
(`response` included) only reaches the logging `otherwise` branch and posts
nothing; an envelope with an unrecognized channel on the process port is
answered by nothing but the `Unknown channel` log, with the state returned
unchanged; on a registered client port a non-service channel only trips the
channel assertion, dispatching nothing and posting nothing; and any process
message that is not a new-client registration leaves the state unchanged. -/
theorem unrecognized_dropped (s : UPMNodeProcess) (clientId : String)
    (port : PortId) (p : Payload) (ev : MessageEvent) :
    (p.kind ≠ .Request → p.kind ≠ .Event →
      onServiceMessage s clientId port p = .invalidKind p.kind ∧
      (onServiceMessage s clientId port p).posts = []) ∧
    (∀ cname, ev.data.unwrap.channel = .other cname →
      onMessage s port ev = (s, .unknownChannel (.other cname))) ∧
    (ev.data.unwrap.channel ≠ .UPMServiceMessage →
      clientPortOnMessage s clientId port ev =
        .assertFailed
          ("Only IPCChannel.UPMServiceMessage are allowed on client ports: "
            ++ ev.data.unwrap.channel.name) ∧
      (clientPortOnMessage s clientId port ev).posts = []) ∧
    (ev.data.unwrap.channel ≠ .UPMServiceNewClient →
      (onMessage s port ev).1 = s) := by
  refine ⟨?_, ?_, ?_, ?_⟩
  · intro h1 h2
    have hmain : onServiceMessage s clientId port p = .invalidKind p.kind := by
      unfold onServiceMessage
      cases hk : p.kind with
      | Request => exact absurd hk h1
      | Event => exact absurd hk h2
      | Response => rfl
      | other s₂ => rfl
    exact ⟨hmain, by rw [hmain]; rfl⟩
  · intro cname hc
    unfold onMessage
    rw [hc]
  · intro hch
    have hmain : clientPortOnMessage s clientId port ev =
        .assertFailed
          ("Only IPCChannel.UPMServiceMessage are allowed on client ports: "
            ++ ev.data.unwrap.channel.name) := by
      unfold clientPortOnMessage
      rw [if_neg hch]
    exact ⟨hmain, by rw [hmain]; rfl⟩
  · intro hch
    unfold onMessage
    cases hc : ev.data.unwrap.channel with
    | UPMServiceMessage => rfl
    | UPMServiceNewClient => exact absurd hc hch
    | other c => rfl

/-- Witness for C5: a `response`-kind payload is dropped without a post, an
unknown channel is dropped with the state unchanged, and a new-client
envelope on a client port only trips the channel assertion. -/
theorem unrecognized_dropped_witness :
    (onServiceMessage demoState "main" 0 responsePayload =
      .invalidKind .Response ∧
     (onServiceMessage demoState "main" 0 responsePayload).posts = []) ∧
    onMessage demoState 0 bogusEvent =
      (demoState, .unknownChannel (.other "bogus")) ∧
    clientPortOnMessage demoState "c1" 2 newClientOnClientPortEvent =
      .assertFailed
        "Only IPCChannel.UPMServiceMessage are allowed on client ports: UPMServiceNewClient" ∧
    (onMessage demoState 0 bogusEvent).1 = demoState :=
  ⟨(unrecognized_dropped demoState "main" 0 responsePayload bogusEvent).1
      (by decide) (by decide),
   (unrecognized_dropped demoState "main" 0 responsePayload bogusEvent).2.1
      "bogus" rfl,
   ((unrecognized_dropped demoState "c1" 2 responsePayload
      newClientOnClientPortEvent).2.2.1 (by decide)).1,
   (unrecognized_dropped demoState "main" 0 responsePayload bogusEvent).2.2.2
      (by decide)⟩

/-- A new-client control envelope on the process port announcing `c1`, with
port `7` attached. -/
def newClientEvent : MessageEvent :=
  { data := .direct { channel := .UPMServiceNewClient
                      payload := { clientId := "c1" } }
    ports := [7] }

/-- C6 (code bug): a new-client registration starts the attached port and
wires its listeners, but `onServiceClientPort` never calls
`this.clientPorts_.set(clientId, port)`, so — contrary to the claim — the
client-port registry does not acquire an entry for the payload's `clientId`:
from the empty registry, registering `c1` with port `7` (directly, and via a
`UPMServiceNewClient` envelope on the process port) leaves `clientPorts_`
empty. The duplicate-registration assertion and the `close` listener's
`clientPorts_.delete(clientId)` both presuppose the missing insertion. -/
theorem new_client_port_not_registered :
    onServiceClientPort demoState "c1" 7 = (demoState, .registered 7) ∧
    (onServiceClientPort demoState "c1" 7).1.clientPorts_ = [] ∧
    mapHas (onServiceClientPort demoState "c1" 7).1.clientPorts_ "c1" = false ∧
    (onMessage demoState 0 newClientEvent).1.clientPorts_ = [] ∧
    (onMessage demoState 0 newClientEvent).2 = .newClient (.registered 7) :=
  ⟨rfl, rfl, rfl, rfl, rfl⟩

/-- C7: a client port is registered at most once per `clientId`: when a
new-client registration arrives for a `clientId` already present in
`clientPorts_`, the guard assertion throws with the source's message and the
state — the existing registry entry included — is returned unchanged. -/
theorem duplicate_client_assert (s : UPMNodeProcess) (clientId : String)
    (port : PortId) (hdup : mapHas s.clientPorts_ clientId = true) :
    onServiceClientPort s clientId port =
      (s, .assertFailed
        ("port already registered for clientId(" ++ clientId ++ ")")) := by
  unfold onServiceClientPort
  rw [if_pos hdup]

/-- Witness for C7: with `c1` already in the registry, re-registering `c1`
fails the assertion and leaves the state untouched. -/
theorem duplicate_client_assert_witness :
    onServiceClientPort dupState "c1" 7 =
      (dupState, .assertFailed "port already registered for clientId(c1)") :=
  duplicate_client_assert dupState "c1" 7 rfl

/-- Unfolding of `mapGet` on a cons cell. -/
theorem mapGet_cons {α : Type} (kv : String × α) (m : List (String × α))
    (k : String) :
    mapGet (kv :: m) k = if kv.1 = k then some kv.2 else mapGet m k := by
  by_cases hk : kv.1 = k
  · simp [mapGet, List.find?, hk]
  · simp [mapGet, List.find?, hk]

/-- Unfolding of `mapDelete` on a cons cell. -/
theorem mapDelete_cons {α : Type} (kv : String × α) (m : List (String × α))
    (k : String) :
    mapDelete (kv :: m) k =
      if kv.1 = k then mapDelete m k else kv :: mapDelete m k := by
  by_cases hk : kv.1 = k <;> simp [mapDelete, List.filter_cons, hk]

/-- Deleting a key removes every binding of that key. -/
theorem mapGet_mapDelete_self {α : Type} (m : List (String × α)) (k : String) :
    mapGet (mapDelete m k) k = none := by
  induction m with
  | nil => rfl
  | cons kv m ih =>
    rw [mapDelete_cons]
    by_cases hk : kv.1 = k
    · rw [if_pos hk]
      exact ih
    · rw [if_neg hk, mapGet_cons, if_neg hk]
      exact ih

/-- Deleting a key leaves every other key's binding unchanged. -/
theorem mapGet_mapDelete_ne {α : Type} (m : List (String × α))
    (k k₂ : String) (hne : k₂ ≠ k) :
    mapGet (mapDelete m k) k₂ = mapGet m k₂ := by
  induction m with
  | nil => rfl
  | cons kv m ih =>
    rw [mapDelete_cons, mapGet_cons]
    by_cases hk : kv.1 = k
    · have hne₂ : kv.1 ≠ k₂ := by
        rw [hk]
        exact fun h => hne h.symm
      rw [if_pos hk, ih, if_neg hne₂]
    · rw [if_neg hk, mapGet_cons, ih]

/-- After deleting a key it is no longer present. -/
theorem mapHas_mapDelete_self {α : Type} (m : List (String × α))
    (k : String) :
    mapHas (mapDelete m k) k = false := by
  induction m with
  | nil => rfl
  | cons kv m ih =>
    rw [mapDelete_cons]
    by_cases hk : kv.1 = k
    · rw [if_pos hk]
      exact ih
    · rw [if_neg hk]
      simpa [mapHas, List.any_cons, hk] using ih

/-- After deleting a key no binding of it remains to be counted. -/
theorem countP_mapDelete_self {α : Type} (m : List (String × α))
    (k : String) :
    ((mapDelete m k).countP fun kv => kv.1 = k) = 0 := by
  induction m with
  | nil => rfl
  | cons kv m ih =>
    rw [mapDelete_cons]
    by_cases hk : kv.1 = k
    · rw [if_pos hk]
      exact ih
    · rw [if_neg hk, List.countP_cons_of_neg]
      · exact ih
      · simp [hk]

/-- C8: the `close` listener of a registered client port removes exactly that
`clientId` from the registry: afterwards the `clientId` has no binding at all
(so the registry keeps at most one open port per client), every other
`clientId` keeps its binding, the handler registries are untouched, and a
later new-client registration for the same `clientId` passes the duplicate
assertion. -/
theorem close_removes_client (s : UPMNodeProcess) (clientId : String)
    (port : PortId) :
    mapGet (clientPortOnClose s clientId).clientPorts_ clientId = none ∧
    (∀ k, k ≠ clientId →
      mapGet (clientPortOnClose s clientId).clientPorts_ k =
        mapGet s.clientPorts_ k) ∧
    (clientPortOnClose s clientId).requestHandlers_ = s.requestHandlers_ ∧
    (clientPortOnClose s clientId).eventHandlers_ = s.eventHandlers_ ∧
    ((clientPortOnClose s clientId).clientPorts_.countP
      fun kv => kv.1 = clientId) = 0 ∧
    onServiceClientPort (clientPortOnClose s clientId) clientId port =
      (clientPortOnClose s clientId, .registered port) := by
  refine ⟨mapGet_mapDelete_self s.clientPorts_ clientId,
    fun k hk => mapGet_mapDelete_ne s.clientPorts_ clientId k hk,
    rfl, rfl,
    countP_mapDelete_self s.clientPorts_ clientId, ?_⟩
  unfold onServiceClientPort
  rw [if_neg ?hcond]
  case hcond =>
    have hfalse : mapHas (clientPortOnClose s clientId).clientPorts_ clientId
        = false := mapHas_mapDelete_self s.clientPorts_ clientId
    simp [hfalse]

/-- Witness for C8: closing `c1` in a registry holding `c1` and `c2` removes
`c1`, keeps `c2`, and lets `c1` register again. -/
theorem close_removes_client_witness :
    mapGet (clientPortOnClose twoClientState "c1").clientPorts_ "c1" = none ∧
    mapGet (clientPortOnClose twoClientState "c1").clientPorts_ "c2" = some 4 ∧
    onServiceClientPort (clientPortOnClose twoClientState "c1") "c1" 7 =
      (clientPortOnClose twoClientState "c1", .registered 7) :=
  ⟨(close_removes_client twoClientState "c1" 7).1,
   (close_removes_client twoClientState "c1" 7).2.1 "c2" (by decide),
   (close_removes_client twoClientState "c1" 7).2.2.2.2.2⟩

/-- A service dispatch posts either nothing or exactly one message, and that
message goes to the port the dispatch was given. -/
theorem onServiceMessage_posts_shape (s : UPMNodeProcess) (clientId : String)
    (port : PortId) (p : Payload) :
    (onServiceMessage s clientId port p).posts = [] ∨
    ∃ msg, (onServiceMessage s clientId port p).posts = [(port, msg)] := by
  unfold onServiceMessage
  cases hk : p.kind with
  | Request =>
    cases hg : mapGet s.requestHandlers_ p.type with
    | none => exact Or.inr ⟨_, rfl⟩
    | some handler =>
      cases hr : handler p.type p.messageId p.args with
      | ok v =>
        refine Or.inr ⟨successReply p.type p.messageId v, ?_⟩
        simp only [hr]
        rfl
      | error e =>
        refine Or.inr ⟨errorReply p.type p.messageId e, ?_⟩
        simp only [hr]
        rfl
  | Event => exact Or.inl rfl
  | Response => exact Or.inl rfl
  | other s₂ => exact Or.inl rfl

/-- Every message a service dispatch posts goes to the given port. -/
theorem onServiceMessage_posts_port (s : UPMNodeProcess) (clientId : String)
    (port : PortId) (p : Payload) :
    ∀ q m, (q, m) ∈ (onServiceMessage s clientId port p).posts → q = port := by
  intro q m hm
  rcases onServiceMessage_posts_shape s clientId port p with hsh | ⟨msg, hsh⟩
  · rw [hsh] at hm
    exact absurd hm (List.not_mem_nil _)
  · rw [hsh, List.mem_singleton] at hm
    exact congrArg Prod.fst hm

/-- Every message a process-port delivery posts goes to the port the listener
was installed on. -/
theorem onMessage_posts_port (s : UPMNodeProcess) (port : PortId)
    (ev : MessageEvent) :
    ∀ q m, (q, m) ∈ ((onMessage s port ev).2).posts → q = port := by
  unfold onMessage
  cases hc : ev.data.unwrap.channel with
  | UPMServiceMessage =>
    intro q m hm
    exact onServiceMessage_posts_port s "main" port ev.data.unwrap.payload q m hm
  | UPMServiceNewClient =>
    cases hp : ev.ports.head? with
    | none => exact fun q m hm => absurd hm (List.not_mem_nil _)
    | some p₀ => exact fun q m hm => absurd hm (List.not_mem_nil _)
  | other c => exact fun q m hm => absurd hm (List.not_mem_nil _)

/-- C10: a service-channel envelope arriving directly on the parent process
port is dispatched with the fixed client identifier `"main"` and every reply
it provokes is posted back on the parent process port; moreover on every port
— the process port and registered client ports alike — the router accepts the
envelope either as the event data itself or nested under the event data's
`message` field, with identical results. -/
theorem main_port_dispatch (s : UPMNodeProcess) (clientId : String)
    (cport : PortId) (env : NodeEnvelope) (ports : List PortId)
    (ev : MessageEvent) :
    onMessage s cport { data := .direct env, ports := ports } =
      onMessage s cport { data := .wrapped env, ports := ports } ∧
    (env.channel = .UPMServiceMessage →
      processOnMessage s { data := .direct env, ports := ports } =
        (s, .service (onServiceMessage s "main" processPort env.payload))) ∧
    (∀ q m, (q, m) ∈ ((processOnMessage s ev).2).posts → q = processPort) ∧
    clientPortOnMessage s clientId cport { data := .direct env, ports := ports } =
      clientPortOnMessage s clientId cport { data := .wrapped env, ports := ports } := by
  refine ⟨rfl, ?_, ?_, rfl⟩
  · intro hc
    obtain ⟨ch, pl⟩ := env
    change ch = IPCChannel.UPMServiceMessage at hc
    subst hc
    rfl
  · exact fun q m hm => onMessage_posts_port s processPort ev q m hm

/-- Witness for C10: a concrete heartbeat envelope on the process port is
dispatched as client `"main"`, identically whether it arrives bare or nested
under `message`, and its reply targets the process port. -/
theorem main_port_dispatch_witness :
    onMessage demoState 0 { data := .direct mainEnvelope, ports := [] } =
      onMessage demoState 0 { data := .wrapped mainEnvelope, ports := [] } ∧
    processOnMessage demoState { data := .direct mainEnvelope, ports := [] } =
      (demoState,
       .service (onServiceMessage demoState "main" processPort heartbeatRequest)) :=
  ⟨(main_port_dispatch demoState "c1" 0 mainEnvelope []
      { data := .direct mainEnvelope, ports := [] }).1,
   (main_port_dispatch demoState "c1" 0 mainEnvelope []
      { data := .direct mainEnvelope, ports := [] }).2.1 rfl⟩

end UPM
